import Mathlib

/-!
Shallow embedding of `src/server.js`: a minimal HTTP backend with three API
handlers (image upload to a blob store, profile creation in a document store,
profile lookup by id).  Handlers are modelled as pure functions from the
request, the server-generated values (fresh identifier, current time) and a
failure oracle for the external stores, to the HTTP response together with the
trace of store operations attempted and the resulting store state.
-/

set_option autoImplicit false

namespace ProfileCloud

/-- JavaScript primitive values as they occur in a parsed JSON request body.
Numbers are modelled as integers (the claims under study only involve
integral numbers and truthiness of `0`); object- and array-valued fields are
not needed by any handler and are omitted. -/
inductive JValue where
  | undefined
  | null
  | bool (b : Bool)
  | num (n : Int)
  | str (s : String)
deriving DecidableEq, Repr

/-- JavaScript truthiness on the modelled values: `undefined`, `null`,
`false`, `0` and the empty string are falsy, everything else truthy. -/
def truthy : JValue → Bool
  | .undefined => false
  | .null => false
  | .bool b => b
  | .num n => n != 0
  | .str s => s != ""

/-- A parsed JSON request body: an association list of field names to values
(JavaScript object keys are unique; lookup takes the first binding). -/
abbrev Body := List (String × JValue)

/-- JavaScript destructuring `const { k } = body`: the bound value, or
`undefined` when the key is absent. -/
def getField (body : Body) (k : String) : JValue :=
  match body.find? (fun p => p.1 == k) with
  | some p => p.2
  | none => .undefined

/-- Models the Node `path.extname` builtin: the substring of the basename from its last
dot to the end; empty when the basename has no dot, when its only leading
character is the dot, or when the basename is exactly `".."`. -/
def extname (p : String) : String :=
  let base := (p.data.reverse.takeWhile (fun c => c != '/')).reverse
  let afterDot := base.reverse.takeWhile (fun c => c != '.')
  if afterDot.length = base.length then ""
  else if base.length = afterDot.length + 1 then ""
  else if base = ['.', '.'] then ""
  else String.mk ('.' :: afterDot.reverse)

/-- The decimal digit character for `n % 10`. -/
def digitChar (n : Nat) : Char := Char.ofNat (48 + n % 10)

/-- A calendar instant as the JavaScript `Date` class exposes it in UTC. -/
structure JsDate where
  year : Nat
  month : Nat
  day : Nat
  hour : Nat
  minute : Nat
  second : Nat
  ms : Nat
deriving DecidableEq, Repr

/-- The field ranges under which `JsDate` describes a real UTC instant of the
years 0–9999 (the range `Date.prototype.toISOString` renders in the
fixed-width `YYYY-MM-DDTHH:mm:ss.sssZ` form). -/
def JsDate.Valid (d : JsDate) : Prop :=
  d.year ≤ 9999 ∧ 1 ≤ d.month ∧ d.month ≤ 12 ∧ 1 ≤ d.day ∧ d.day ≤ 31 ∧
  d.hour ≤ 23 ∧ d.minute ≤ 59 ∧ d.second ≤ 59 ∧ d.ms ≤ 999

instance (d : JsDate) : Decidable d.Valid := by
  unfold JsDate.Valid; infer_instance

/-- Models `Date.prototype.toISOString` on a valid date: the fixed-width
`YYYY-MM-DDTHH:mm:ss.sssZ` rendering of the UTC fields. -/
def toISOString (d : JsDate) : String :=
  String.mk
    [digitChar (d.year / 1000), digitChar (d.year / 100),
     digitChar (d.year / 10), digitChar d.year,
     '-', digitChar (d.month / 10), digitChar d.month,
     '-', digitChar (d.day / 10), digitChar d.day,
     'T', digitChar (d.hour / 10), digitChar d.hour,
     ':', digitChar (d.minute / 10), digitChar d.minute,
     ':', digitChar (d.second / 10), digitChar d.second,
     '.', digitChar (d.ms / 100), digitChar (d.ms / 10), digitChar d.ms,
     'Z']

/-- Checks that a string has the ISO-8601 UTC shape `YYYY-MM-DDTHH:mm:ss.sssZ`
produced by `toISOString`. -/
def isIso8601UTC (s : String) : Bool :=
  match s.data with
  | [y1, y2, y3, y4, s1, mo1, mo2, s2, d1, d2, t,
     h1, h2, c1, mi1, mi2, c2, se1, se2, p, f1, f2, f3, z] =>
    y1.isDigit && y2.isDigit && y3.isDigit && y4.isDigit && s1 == '-' &&
    mo1.isDigit && mo2.isDigit && s2 == '-' && d1.isDigit && d2.isDigit &&
    t == 'T' && h1.isDigit && h2.isDigit && c1 == ':' &&
    mi1.isDigit && mi2.isDigit && c2 == ':' && se1.isDigit && se2.isDigit &&
    p == '.' && f1.isDigit && f2.isDigit && f3.isDigit && z == 'Z'
  | _ => false

/-- The profile document composed by the create handler: exactly the six
fields of the object literal at `src/server.js:116-123`. -/
structure ProfileDoc where
  id : String
  name : JValue
  age : JValue
  bio : JValue
  imageUrl : JValue
  createdAt : String
deriving DecidableEq, Repr

/-- The JSON object a `ProfileDoc` serialises to: its six fields, in the
order of the object literal in the source. -/
def ProfileDoc.jsonFields (d : ProfileDoc) : List (String × JValue) :=
  [("id", .str d.id), ("name", d.name), ("age", d.age), ("bio", d.bio),
   ("imageUrl", d.imageUrl), ("createdAt", .str d.createdAt)]

/-- The body of an HTTP response: plain text (`res.send`) or one of the JSON
shapes the handlers produce (`res.json`). -/
inductive RespBody where
  | text (s : String)
  | jsonDoc (d : ProfileDoc)
  | jsonImageUrl (url : String)
deriving DecidableEq, Repr

/-- An HTTP response: status code and body. -/
structure Response where
  status : Nat
  body : RespBody
deriving DecidableEq, Repr

/-- The in-memory file multer attaches as `req.file` for field `photo`. -/
structure UploadedFile where
  originalname : String
  buffer : List Nat
  mimetype : String
deriving DecidableEq, Repr

/-- An operation attempted against the blob object store. -/
inductive BlobOp where
  | createIfNotExists
  | uploadData (name : String) (data : List Nat) (contentType : String)
deriving DecidableEq, Repr

/-- A stored blob: object name, raw bytes, and content type. -/
structure BlobEntry where
  name : String
  content : List Nat
  contentType : String
deriving DecidableEq, Repr

/-- Applies successfully completed blob operations to the store state:
`createIfNotExists` leaves the blob set unchanged, `uploadData` writes (or
overwrites) the named object. -/
def runBlobOps (st : List BlobEntry) : List BlobOp → List BlobEntry
  | [] => st
  | .createIfNotExists :: rest => runBlobOps st rest
  | .uploadData n dat ct :: rest =>
      runBlobOps (⟨n, dat, ct⟩ :: st.filter (fun e => e.name != n)) rest

/-- Failure oracle for the two blob-store calls of the upload handler: `some
err` means the call throws `err`. -/
structure UploadOracle where
  createContainerFail : Option String
  uploadFail : Option String
deriving DecidableEq, Repr

/-- The multer configuration `limits.fileSize`: 4 MiB (`src/server.js:66`). -/
def fileSizeLimit : Nat := 4 * 1024 * 1024

/-- The `POST /api/upload` handler body (`src/server.js:75-102`), parametrised
by the container URL, the fresh identifier `uuidv4()` returns, and the failure
oracle.  Returns the response and the trace of blob-store calls attempted. -/
def uploadHandler (containerUrl genId : String) (o : UploadOracle)
    (file : Option UploadedFile) : Response × List BlobOp :=
  match file with
  | none => (⟨400, .text "No file uploaded. Field name must be \u0027photo\u0027."⟩, [])
  | some f =>
    match o.createContainerFail with
    | some _ => (⟨500, .text "Upload failed."⟩, [.createIfNotExists])
    | none =>
      let ext := if extname f.originalname == "" then ".jpg" else extname f.originalname
      let blobName := genId ++ ext
      match o.uploadFail with
      | some _ =>
          (⟨500, .text "Upload failed."⟩,
           [.createIfNotExists, .uploadData blobName f.buffer f.mimetype])
      | none =>
          (⟨200, .jsonImageUrl (containerUrl ++ "/" ++ blobName)⟩,
           [.createIfNotExists, .uploadData blobName f.buffer f.mimetype])

/-- The `/api/upload` route including the multer layer: a file above the 4 MiB
limit aborts multipart parsing with a `LIMIT_FILE_SIZE` error that the Express
default error handler turns into a 500, and the handler body never runs. -/
def uploadRoute (containerUrl genId : String) (o : UploadOracle)
    (reqFile : Option UploadedFile) : Response × List BlobOp :=
  match reqFile with
  | some f =>
      if f.buffer.length > fileSizeLimit then (⟨500, .text "File too large"⟩, [])
      else uploadHandler containerUrl genId o (some f)
  | none => uploadHandler containerUrl genId o none

/-- An operation attempted against the document store. -/
inductive DocOp where
  | create (d : ProfileDoc)
  | query (id : String)
deriving DecidableEq, Repr

/-- The validation test of the create-profile handler (`src/server.js:109`):
`!name || age === undefined || !bio || !imageUrl`. -/
def missingFields (body : Body) : Bool :=
  !truthy (getField body "name") || getField body "age" == JValue.undefined ||
  !truthy (getField body "bio") || !truthy (getField body "imageUrl")

/-- The `POST /api/profiles` handler (`src/server.js:105-132`), parametrised
by the fresh identifier `uuidv4()` returns, the current time, and the failure
oracle for `items.create`.  Returns the response, the trace of document-store
calls attempted, and the document store after the request. -/
def createProfile (genId : String) (now : JsDate) (createFail : Option String)
    (body : Body) (store : List ProfileDoc) :
    Response × List DocOp × List ProfileDoc :=
  if missingFields body then
    (⟨400, .text "Missing fields: name, age, bio, imageUrl are required."⟩, [], store)
  else
    let doc : ProfileDoc :=
      ⟨genId, getField body "name", getField body "age", getField body "bio",
       getField body "imageUrl", toISOString now⟩
    match createFail with
    | some _ => (⟨500, .text "Create profile failed."⟩, [.create doc], store)
    | none => (⟨201, .jsonDoc doc⟩, [.create doc], store ++ [doc])

/-- The `GET /api/profiles/:id` handler (`src/server.js:135-157`): a filtered
query `SELECT * FROM c WHERE c.id = @id` against the document store,
parametrised by the failure oracle for the query.  Returns the response and
the trace of document-store calls attempted. -/
def getProfile (queryFail : Option String) (id : String)
    (store : List ProfileDoc) : Response × List DocOp :=
  match queryFail with
  | some _ => (⟨500, .text "Read profile failed."⟩, [.query id])
  | none =>
    match store.filter (fun d => d.id == id) with
    | [] => (⟨404, .text "Not found"⟩, [.query id])
    | d :: _ => (⟨200, .jsonDoc d⟩, [.query id])

/-- A concrete valid request body (the worked example of the spec). -/
def body0 : Body :=
  [("name", .str "Ana"), ("age", .num 30), ("bio", .str "hi"),
   ("imageUrl", .str "https://x/y.jpg")]

/-- A concrete request body with a null `age` and the other fields truthy. -/
def bodyAgeNull : Body :=
  [("name", .str "Ana"), ("age", .null), ("bio", .str "hi"),
   ("imageUrl", .str "https://x/y.jpg")]

/-- A concrete request body lacking the `imageUrl` field. -/
def bodyMissing : Body :=
  [("name", .str "Ana"), ("age", .num 30), ("bio", .str "hi")]

/-- A concrete calendar instant. -/
def date0 : JsDate := ⟨2026, 10, 11, 12, 0, 0, 0⟩

/-- The profile document the create handler composes from `body0` at `date0`
with fresh identifier `"id-1"`. -/
def doc0 : ProfileDoc :=
  ⟨"id-1", getField body0 "name", getField body0 "age", getField body0 "bio",
   getField body0 "imageUrl", toISOString date0⟩

/-- A concrete small uploaded file. -/
def file0 : UploadedFile := ⟨"a.png", [1, 2, 3], "image/png"⟩

/-- A concrete uploaded file one byte over the 4 MiB limit. -/
def bigFile : UploadedFile :=
  ⟨"a.png", List.replicate (fileSizeLimit + 1) 0, "image/png"⟩

theorem digitChar_isDigit (n : Nat) : (digitChar n).isDigit = true := by
  have h : n % 10 < 10 := Nat.mod_lt n (by omega)
  unfold digitChar
  interval_cases h : n % 10 <;> decide

theorem isIso8601UTC_toISOString (d : JsDate) :
    isIso8601UTC (toISOString d) = true := by
  simp [toISOString, isIso8601UTC, digitChar_isDigit]

/-- C2: a `POST /api/profiles` request whose body passes the presence check
(`name`/`bio`/`imageUrl` truthy, `age` not strictly undefined) makes the
handler compose a record carrying the fresh server-generated identifier and
an ISO-8601 creation timestamp, persist exactly that record to the document
store, and respond 201 with the record as JSON. -/
theorem createProfile_valid_creates_and_persists (genId : String) (now : JsDate)
    (body : Body) (store : List ProfileDoc)
    (hbody : missingFields body = false) (_hnow : now.Valid) :
    createProfile genId now none body store =
      (⟨201, .jsonDoc ⟨genId, getField body "name", getField body "age",
          getField body "bio", getField body "imageUrl", toISOString now⟩⟩,
       [.create ⟨genId, getField body "name", getField body "age",
          getField body "bio", getField body "imageUrl", toISOString now⟩],
       store ++ [⟨genId, getField body "name", getField body "age",
          getField body "bio", getField body "imageUrl", toISOString now⟩]) ∧
    isIso8601UTC (toISOString now) = true := by
  refine ⟨?_, isIso8601UTC_toISOString now⟩
  simp [createProfile, hbody]

/-- Witness for C2 at the example body of the spec. -/
theorem createProfile_valid_creates_and_persists_witness :
    missingFields body0 = false ∧ JsDate.Valid date0 ∧
    (createProfile "id-1" date0 none body0 [] =
      (⟨201, .jsonDoc doc0⟩, [.create doc0], [] ++ [doc0]) ∧
     isIso8601UTC (toISOString date0) = true) :=
  ⟨by decide, by decide,
   createProfile_valid_creates_and_persists "id-1" date0 body0 []
     (by decide) (by decide)⟩

/-- C3: a `POST /api/profiles` request missing any required field — falsy
`name`/`bio`/`imageUrl`, or strictly undefined `age` — gets a 400 response
naming the required fields, and no document-store call is made, so nothing is
persisted. -/
theorem createProfile_missing_field_rejected (genId : String) (now : JsDate)
    (createFail : Option String) (body : Body) (store : List ProfileDoc)
    (h : truthy (getField body "name") = false ∨
         getField body "age" = JValue.undefined ∨
         truthy (getField body "bio") = false ∨
         truthy (getField body "imageUrl") = false) :
    createProfile genId now createFail body store =
      (⟨400, .text "Missing fields: name, age, bio, imageUrl are required."⟩,
       [], store) := by
  have hmiss : missingFields body = true := by
    unfold missingFields
    rcases h with h | h | h | h <;> simp [h]
  simp [createProfile, hmiss]

/-- Witness for C3 at a body lacking `imageUrl`. -/
theorem createProfile_missing_field_rejected_witness :
    truthy (getField bodyMissing "imageUrl") = false ∧
    createProfile "id-1" date0 none bodyMissing [] =
      (⟨400, .text "Missing fields: name, age, bio, imageUrl are required."⟩,
       [], []) :=
  ⟨by decide,
   createProfile_missing_field_rejected "id-1" date0 none bodyMissing []
     (Or.inr (Or.inr (Or.inr (by decide))))⟩

/-- C9: the persisted and returned record is composed of exactly the six
fields `id`, `name`, `age`, `bio`, `imageUrl`, `createdAt`; `id` and
`createdAt` are always the server-generated values, and the handler reads only
the four client fields of the body, so client-supplied `id`, `createdAt` or
extra body fields never influence the outcome. -/
theorem createProfile_server_owned_fields (genId : String) (now : JsDate)
    (body : Body) (store : List ProfileDoc)
    (hbody : missingFields body = false) :
    ∃ doc : ProfileDoc,
      createProfile genId now none body store =
        (⟨201, .jsonDoc doc⟩, [.create doc], store ++ [doc]) ∧
      doc.id = genId ∧ doc.createdAt = toISOString now ∧
      doc.jsonFields.map Prod.fst =
        ["id", "name", "age", "bio", "imageUrl", "createdAt"] ∧
      ∀ (body2 : Body) (createFail : Option String) (store2 : List ProfileDoc),
        getField body2 "name" = getField body "name" →
        getField body2 "age" = getField body "age" →
        getField body2 "bio" = getField body "bio" →
        getField body2 "imageUrl" = getField body "imageUrl" →
        createProfile genId now createFail body2 store2 =
          createProfile genId now createFail body store2 := by
  refine ⟨⟨genId, getField body "name", getField body "age",
    getField body "bio", getField body "imageUrl", toISOString now⟩,
    ?_, rfl, rfl, rfl, ?_⟩
  · simp [createProfile, hbody]
  · intro body2 createFail store2 h1 h2 h3 h4
    simp [createProfile, missingFields, h1, h2, h3, h4]

/-- Witness for C9 at the example body. -/
theorem createProfile_server_owned_fields_witness :
    missingFields body0 = false ∧
    (∃ doc : ProfileDoc,
      createProfile "id-1" date0 none body0 [] =
        (⟨201, .jsonDoc doc⟩, [.create doc], [] ++ [doc]) ∧
      doc.id = "id-1" ∧ doc.createdAt = toISOString date0 ∧
      doc.jsonFields.map Prod.fst =
        ["id", "name", "age", "bio", "imageUrl", "createdAt"] ∧
      ∀ (body2 : Body) (createFail : Option String) (store2 : List ProfileDoc),
        getField body2 "name" = getField body0 "name" →
        getField body2 "age" = getField body0 "age" →
        getField body2 "bio" = getField body0 "bio" →
        getField body2 "imageUrl" = getField body0 "imageUrl" →
        createProfile "id-1" date0 createFail body2 store2 =
          createProfile "id-1" date0 createFail body0 store2) :=
  ⟨by decide, createProfile_server_owned_fields "id-1" date0 body0 [] (by decide)⟩

/-- C10: `age` is presence-checked only — any value other than strictly
undefined (null, 0, false, the empty string, an arbitrary string, ...) passes
validation and is persisted and returned unchanged, provided the other three
fields are truthy. -/
theorem createProfile_age_presence_only (genId : String) (now : JsDate)
    (body : Body) (store : List ProfileDoc)
    (hname : truthy (getField body "name") = true)
    (hbio : truthy (getField body "bio") = true)
    (himg : truthy (getField body "imageUrl") = true)
    (hage : getField body "age" ≠ JValue.undefined) :
    ∃ doc : ProfileDoc,
      createProfile genId now none body store =
        (⟨201, .jsonDoc doc⟩, [.create doc], store ++ [doc]) ∧
      doc.age = getField body "age" := by
  have hmiss : missingFields body = false := by
    unfold missingFields
    simp [hname, hbio, himg, hage]
  exact ⟨⟨genId, getField body "name", getField body "age",
    getField body "bio", getField body "imageUrl", toISOString now⟩,
    by simp [createProfile, hmiss], rfl⟩

/-- Witness for C10 at a body whose `age` is null. -/
theorem createProfile_age_presence_only_witness :
    truthy (getField bodyAgeNull "name") = true ∧
    truthy (getField bodyAgeNull "bio") = true ∧
    truthy (getField bodyAgeNull "imageUrl") = true ∧
    getField bodyAgeNull "age" ≠ JValue.undefined ∧
    (∃ doc : ProfileDoc,
      createProfile "id-1" date0 none bodyAgeNull [] =
        (⟨201, .jsonDoc doc⟩, [.create doc], [] ++ [doc]) ∧
      doc.age = getField bodyAgeNull "age") :=
  ⟨by decide, by decide, by decide, by decide,
   createProfile_age_presence_only "id-1" date0 bodyAgeNull []
     (by decide) (by decide) (by decide) (by decide)⟩

/-- C1: a profile created via `POST /api/profiles` with valid fields is
immediately retrievable by the returned id: the subsequent
`GET /api/profiles/:id` on the store left by the create succeeds with 200 and
returns the same record — submitted `name`, `age`, `bio`, `imageUrl` plus the
server-assigned `id` and `createdAt`.  The generated identifier is assumed
fresh for the store, as the identifier generation scheme guarantees. -/
theorem create_then_read_roundtrip (genId : String) (now : JsDate)
    (body : Body) (store : List ProfileDoc)
    (hbody : missingFields body = false)
    (hfresh : ∀ d ∈ store, d.id ≠ genId) :
    ∃ doc : ProfileDoc,
      createProfile genId now none body store =
        (⟨201, .jsonDoc doc⟩, [.create doc], store ++ [doc]) ∧
      doc.id = genId ∧ doc.name = getField body "name" ∧
      doc.age = getField body "age" ∧ doc.bio = getField body "bio" ∧
      doc.imageUrl = getField body "imageUrl" ∧
      doc.createdAt = toISOString now ∧
      getProfile none genId (store ++ [doc]) =
        (⟨200, .jsonDoc doc⟩, [.query genId]) := by
  refine ⟨⟨genId, getField body "name", getField body "age",
    getField body "bio", getField body "imageUrl", toISOString now⟩,
    ?_, rfl, rfl, rfl, rfl, rfl, rfl, ?_⟩
  · simp [createProfile, hbody]
  · have h1 : store.filter (fun d => d.id == genId) = [] := by
      rw [List.filter_eq_nil_iff]
      intro d hd
      simpa using hfresh d hd
    simp [getProfile, List.filter_append, h1]

/-- Witness for C1 at the example body on the empty store. -/
theorem create_then_read_roundtrip_witness :
    missingFields body0 = false ∧ (∀ d ∈ ([] : List ProfileDoc), d.id ≠ "id-1") ∧
    (∃ doc : ProfileDoc,
      createProfile "id-1" date0 none body0 [] =
        (⟨201, .jsonDoc doc⟩, [.create doc], [] ++ [doc]) ∧
      doc.id = "id-1" ∧ doc.name = getField body0 "name" ∧
      doc.age = getField body0 "age" ∧ doc.bio = getField body0 "bio" ∧
      doc.imageUrl = getField body0 "imageUrl" ∧
      doc.createdAt = toISOString date0 ∧
      getProfile none "id-1" ([] ++ [doc]) =
        (⟨200, .jsonDoc doc⟩, [.query "id-1"])) :=
  ⟨by decide, by simp,
   create_then_read_roundtrip "id-1" date0 body0 [] (by decide) (by simp)⟩

/-- C4: `GET /api/profiles/:id` is a filtered query on the `id` field — the
response is 404 exactly when the filter yields no match, and it is 200 with
record `d` as JSON exactly when `d` is the first match of the filter. -/
theorem getProfile_filtered_query (id : String) (store : List ProfileDoc) :
    (getProfile none id store = (⟨404, .text "Not found"⟩, [.query id]) ↔
      store.filter (fun d => d.id == id) = []) ∧
    ∀ d : ProfileDoc,
      getProfile none id store = (⟨200, .jsonDoc d⟩, [.query id]) ↔
        ∃ rest, store.filter (fun x => x.id == id) = d :: rest := by
  cases h : store.filter (fun d => d.id == id) with
  | nil =>
    refine ⟨by simp [getProfile, h], ?_⟩
    intro d
    simp [getProfile, h]
  | cons a rest =>
    refine ⟨by simp [getProfile, h], ?_⟩
    intro d
    simp only [getProfile, h]
    constructor
    · intro he
      exact ⟨rest, by simpa using congrArg (fun r => r.1.body) he⟩
    · rintro ⟨r, hr⟩
      obtain ⟨rfl, rfl⟩ : a = d ∧ rest = r := by
        simpa using hr
      rfl

/-- C5: a successful `POST /api/upload` names the stored object by
concatenating the fresh identifier with the original extension (defaulting to
`.jpg` when the filename has none), writes the raw bytes under that name with
the declared MIME type as content type, and responds with JSON `{ imageUrl }`
holding the URL of that object. -/
theorem uploadHandler_success (containerUrl genId : String) (f : UploadedFile)
    (st : List BlobEntry) :
    uploadHandler containerUrl genId ⟨none, none⟩ (some f) =
      (⟨200, .jsonImageUrl (containerUrl ++ "/" ++
          (genId ++ (if extname f.originalname == "" then ".jpg"
                     else extname f.originalname)))⟩,
       [.createIfNotExists,
        .uploadData (genId ++ (if extname f.originalname == "" then ".jpg"
                               else extname f.originalname))
          f.buffer f.mimetype]) ∧
    (runBlobOps st
        [.createIfNotExists,
         .uploadData (genId ++ (if extname f.originalname == "" then ".jpg"
                                else extname f.originalname))
           f.buffer f.mimetype]).find?
        (fun e => e.name ==
          genId ++ (if extname f.originalname == "" then ".jpg"
                    else extname f.originalname)) =
      some ⟨genId ++ (if extname f.originalname == "" then ".jpg"
                      else extname f.originalname), f.buffer, f.mimetype⟩ := by
  refine ⟨by simp [uploadHandler], ?_⟩
  simp only [runBlobOps]
  exact List.find?_cons_of_pos _ (by simp)

/-- C6: a `POST /api/upload` request with no file under the `photo` field gets
a 400 response with a descriptive message and the trace of blob-store calls is
empty: neither the container existence check nor the blob write happens. -/
theorem uploadRoute_missing_file (containerUrl genId : String)
    (o : UploadOracle) :
    uploadRoute containerUrl genId o none =
      (⟨400, .text "No file uploaded. Field name must be \u0027photo\u0027."⟩,
       []) := rfl

/-- C7: a failure raised by either blob-store call of the upload handler, by
the document-store create, or by the document-store query is surfaced as a 500
response whose generic message is the same for every error value `err`, and
the trace shows the failed call attempted exactly once with nothing after it —
no retry. -/
theorem store_failure_uniform_500 (containerUrl genId err : String)
    (u : Option String) (f : UploadedFile) (now : JsDate) (body : Body)
    (store : List ProfileDoc) (id : String)
    (hbody : missingFields body = false) :
    uploadHandler containerUrl genId ⟨some err, u⟩ (some f) =
      (⟨500, .text "Upload failed."⟩, [.createIfNotExists]) ∧
    uploadHandler containerUrl genId ⟨none, some err⟩ (some f) =
      (⟨500, .text "Upload failed."⟩,
       [.createIfNotExists,
        .uploadData (genId ++ (if extname f.originalname == "" then ".jpg"
                               else extname f.originalname))
          f.buffer f.mimetype]) ∧
    createProfile genId now (some err) body store =
      (⟨500, .text "Create profile failed."⟩,
       [.create ⟨genId, getField body "name", getField body "age",
          getField body "bio", getField body "imageUrl", toISOString now⟩],
       store) ∧
    getProfile (some err) id store =
      (⟨500, .text "Read profile failed."⟩, [.query id]) := by
  refine ⟨rfl, by simp [uploadHandler], ?_, rfl⟩
  simp [createProfile, hbody]

/-- Witness for C7 at concrete requests. -/
theorem store_failure_uniform_500_witness :
    missingFields body0 = false ∧
    (uploadHandler "http://c" "id-1" ⟨some "boom", none⟩ (some file0) =
      (⟨500, .text "Upload failed."⟩, [.createIfNotExists]) ∧
     uploadHandler "http://c" "id-1" ⟨none, some "boom"⟩ (some file0) =
      (⟨500, .text "Upload failed."⟩,
       [.createIfNotExists,
        .uploadData ("id-1" ++ (if extname file0.originalname == "" then ".jpg"
                                else extname file0.originalname))
          file0.buffer file0.mimetype]) ∧
     createProfile "id-1" date0 (some "boom") body0 [] =
      (⟨500, .text "Create profile failed."⟩,
       [.create ⟨"id-1", getField body0 "name", getField body0 "age",
          getField body0 "bio", getField body0 "imageUrl",
          toISOString date0⟩],
       []) ∧
     getProfile (some "boom") "p1" [] =
      (⟨500, .text "Read profile failed."⟩, [.query "p1"])) :=
  ⟨by decide,
   store_failure_uniform_500 "http://c" "id-1" "boom" none file0 date0 body0
     [] "p1" (by decide)⟩

/-- C8: a `POST /api/upload` request whose file exceeds 4 MiB is rejected by
the multipart-parsing layer before the handler body runs, so the trace of
blob-store calls is empty. -/
theorem uploadRoute_oversize_rejected (containerUrl genId : String)
    (o : UploadOracle) (f : UploadedFile)
    (h : f.buffer.length > fileSizeLimit) :
    uploadRoute containerUrl genId o (some f) =
      (⟨500, .text "File too large"⟩, []) := by
  simp [uploadRoute, h]

/-- Witness for C8 at a file one byte over the limit. -/
theorem uploadRoute_oversize_rejected_witness :
    bigFile.buffer.length > fileSizeLimit ∧
    uploadRoute "http://c" "id-1" ⟨none, none⟩ (some bigFile) =
      (⟨500, .text "File too large"⟩, []) :=
  ⟨by simp [bigFile], uploadRoute_oversize_rejected "http://c" "id-1"
     ⟨none, none⟩ bigFile (by simp [bigFile])⟩

end ProfileCloud
